import Mathlib

/-!
Verification of the value-marshaling core of a Neovim binding layer.

The development shallowly embeds the parts of the repository that the
checked properties are about:

* `crates/oxi-types/src/error.rs` — the out-parameter error record
  (`Error`, `ErrorType`, `Error::new`, `Error::is_err`, `Error::from_str`,
  and the `Display` implementation);
* `crates/oxi-types/src/non_owning.rs` — the `NonOwning` borrow wrapper,
  modelled through Rust drop-glue semantics over an allocation-counting
  state;
* the dynamic `Object` value and the `to_object` / `from_object`
  conversion layer (modelled from the specification, since those source
  files are not part of the sample);
* representative fallible wrapper functions from
  `crates/oxi-api/src/global.rs` (`chan_send`, `create_buf`,
  `eval_statusline`, `open_term`, `get_color_by_name`), with the native
  side of each boundary call abstracted as an oracle function.

C strings and Neovim strings are modelled as lists of byte values
(`List Nat`); machine integers crossing the boundary are modelled as
`Int` with explicit range checks where the code performs a fallible
narrowing conversion.
-/

namespace NvimOxi

/-! ## The error record (crates/oxi-types/src/error.rs) -/

/-- Embeds `ErrorType` from error.rs: the discriminant of the native
error record, with variants `None = -1`, `Exception`, `Validation`. -/
inductive ErrorType where
  | none
  | exception
  | validation
deriving DecidableEq

/-- Embeds the `Error` struct from error.rs: a discriminant plus a
`msg: *mut c_char` message pointer. A null pointer is `Option.none`; a
non-null pointer owning the NUL-terminated byte string `m` (stored here
without the terminator) is `Option.some m`. -/
structure Error where
  type : ErrorType
  msg : Option (List Nat)
deriving DecidableEq

/-- Embeds `Error::new`: discriminant `None`, null message pointer. -/
def Error.new : Error :=
  { type := ErrorType.none, msg := Option.none }

/-- Embeds the `Default` impl for `Error`, which calls `Error::new`. -/
def Error.default : Error :=
  Error.new

/-- Embeds `Error::is_err`: `!matches!(self.r#type, ErrorType::None)`. -/
def Error.is_err (e : Error) : Bool :=
  match e.type with
  | ErrorType.none => false
  | _ => true

/-- Embeds `CString::new` on a byte string: fails (returns `none`)
exactly when the bytes contain an interior NUL byte. -/
def cstringNew (s : List Nat) : Option (List Nat) :=
  if s.contains 0 then Option.none else Option.some s

/-- Embeds `Error::from_str`: builds a C string from the input with
`CString::new(..).unwrap_or_default()` (the default `CString` is empty,
so an interior NUL yields an empty message), stores its raw pointer in
`msg`, and sets the discriminant to `Exception`. -/
def Error.from_str (s : List Nat) : Error :=
  let c_string := (cstringNew s).getD []
  { type := ErrorType.exception, msg := Option.some c_string }

/-- Hexadecimal digit character for a value below 16, lower case. -/
def hexDigit (n : Nat) : Char :=
  if n < 10 then Char.ofNat (48 + n) else Char.ofNat (87 + n)

/-- Embeds `u8::escape_ascii`, the per-byte escaping used by the `Debug`
implementation of `CStr`: tab, carriage return, newline, backslash and
both quote characters are backslash-escaped, printable ASCII is kept,
and every other byte becomes a `\xNN` escape. -/
def escapeByte (b : Nat) : List Char :=
  if b = 9 then [Char.ofNat 92, Char.ofNat 116]
  else if b = 13 then [Char.ofNat 92, Char.ofNat 114]
  else if b = 10 then [Char.ofNat 92, Char.ofNat 110]
  else if b = 92 then [Char.ofNat 92, Char.ofNat 92]
  else if b = 39 then [Char.ofNat 92, Char.ofNat 39]
  else if b = 34 then [Char.ofNat 92, Char.ofNat 34]
  else if 32 ≤ b ∧ b ≤ 126 then [Char.ofNat b]
  else [Char.ofNat 92, Char.ofNat 120, hexDigit (b / 16), hexDigit (b % 16)]

/-- Embeds the `Debug` formatting of a `CStr`: the escaped bytes wrapped
in double quotes. -/
def cstrDebug (m : List Nat) : String :=
  String.mk (Char.ofNat 34 :: (m.flatMap escapeByte ++ [Char.ofNat 34]))

/-- Embeds the `Display` impl for `Error` from error.rs: if the message
pointer is non-null, format the pointed-to C string with `Debug`;
otherwise format the discriminant (`None` writes nothing, `Exception`
writes "exception", `Validation` writes "validation"). -/
def Error.display (e : Error) : String :=
  match e.msg with
  | Option.some m => cstrDebug m
  | Option.none =>
    match e.type with
    | ErrorType.none => ""
    | ErrorType.exception => "exception"
    | ErrorType.validation => "validation"

end NvimOxi

namespace NvimOxi

/-! ## Claims C4, C8, C9 -/

/-- C4: `Error::is_err` returns `false` exactly when the discriminant is
the `None` variant, and returns `true` on `Exception` and `Validation`;
in particular it is `false` on `Error::new()` and `Error::default()`. -/
theorem is_err_iff_type_none (e : Error) :
    (e.is_err = false ↔ e.type = ErrorType.none) ∧
    Error.is_err Error.new = false ∧
    Error.is_err Error.default = false := by
  refine ⟨?_, rfl, rfl⟩
  cases h : e.type <;> simp [Error.is_err, h]

/-- C8: `Error::from_str` always yields a record with discriminant
`Exception` (hence `is_err` holds) and never fails: an input with an
interior NUL byte produces an empty message, any other input keeps its
bytes as the message. -/
theorem from_str_exception (s : List Nat) :
    (Error.from_str s).type = ErrorType.exception ∧
    (Error.from_str s).is_err = true ∧
    (Error.from_str s).msg =
      Option.some (if s.contains 0 then [] else s) := by
  refine ⟨rfl, rfl, ?_⟩
  by_cases h : (0 : Nat) ∈ s <;>
    simp [Error.from_str, cstringNew, h]

/-- C9: displaying an `Error` gives the message precedence over the
discriminant: a non-null message is printed Debug-quoted whatever the
discriminant is, while with a null message the discriminant `None`
formats as the empty string, `Exception` as "exception" and
`Validation` as "validation". -/
theorem display_msg_precedence (t : ErrorType) (m : List Nat) :
    Error.display { type := t, msg := Option.some m } = cstrDebug m ∧
    Error.display { type := ErrorType.none, msg := Option.none } = "" ∧
    Error.display { type := ErrorType.exception, msg := Option.none } =
      "exception" ∧
    Error.display { type := ErrorType.validation, msg := Option.none } =
      "validation" :=
  ⟨rfl, rfl, rfl, rfl⟩

/-! ## The non-owning wrapper (crates/oxi-types/src/non_owning.rs)

`NonOwning` is about what happens when values are dropped, so it is
modelled through Rust drop-glue semantics over an allocation-counting
state (the "allocation-counting test double" the specification asks
for): a value is a tree naming the heap allocations its destructor
would free, and dropping a value applies its drop glue to the state. -/

/-- State of the allocation-counting allocator double: the currently
live allocation identifiers and how many times each identifier has been
freed so far. -/
structure AllocState where
  live : List Nat
  freeCount : Nat → Nat

/-- Free one allocation: remove it from the live set and bump its free
counter (a counter above 1 is a double free). -/
def freeAlloc (a : Nat) (s : AllocState) : AllocState :=
  { live := s.live.erase a,
    freeCount := fun i => if i = a then s.freeCount i + 1 else s.freeCount i }

/-- A Rust value, seen by the drop checker: a plain value with no drop
glue, an owned heap-backed value whose destructor frees allocation `a`,
a `std::mem::ManuallyDrop` wrapper, a `PhantomData` marker, or a struct
without a `Drop` impl whose drop glue is the drop glue of its fields in
order. -/
inductive RVal where
  | prim
  | ownedBuf (a : Nat)
  | manuallyDrop (v : RVal)
  | phantomData
  | structV (fields : List RVal)

mutual

/-- Rust drop-glue semantics on the allocation state. `ManuallyDrop`
suppresses the drop glue of its content (that is its defining
behaviour); `PhantomData` and primitives free nothing; a struct without
a `Drop` impl drops its fields in declaration order. -/
def dropGlue : RVal → AllocState → AllocState
  | RVal.prim, s => s
  | RVal.ownedBuf a, s => freeAlloc a s
  | RVal.manuallyDrop _, s => s
  | RVal.phantomData, s => s
  | RVal.structV fields, s => dropGlueList fields s

/-- Drop glue of a list of struct fields, applied left to right. -/
def dropGlueList : List RVal → AllocState → AllocState
  | [], s => s
  | v :: vs, s => dropGlueList vs (dropGlue v s)

end

/-- Embeds `NonOwning::new` from non_owning.rs: the wrapper struct holds
`inner: ManuallyDrop<T>` and `lt: PhantomData<&a ()>`, and declares no
`Drop` impl, so its drop glue is the (suppressed) drop glue of those two
fields. -/
def NonOwning.new (v : RVal) : RVal :=
  RVal.structV [RVal.manuallyDrop v, RVal.phantomData]

/-- Names of the Rust traits relevant to the `NonOwning` wrapper. -/
inductive RustTrait where
  | copyImpl
  | cloneImpl
  | debugImpl
  | defaultImpl
  | dropImpl
deriving DecidableEq

/-- The trait implementations declared for `NonOwning` in
non_owning.rs: the file derives nothing and contains exactly an `impl`
of `Debug` (for `T: Debug`) and an `impl` of `Default` (for
`T: Default`), besides the inherent `new`. In particular there is no
`Copy`, no `Clone` and no `Drop` impl. -/
def nonOwningTraitImpls : List RustTrait :=
  [RustTrait.debugImpl, RustTrait.defaultImpl]

/-! ## Claims C6, C7 -/

/-- C6: dropping `NonOwning::new(v)` never runs the destructor of the
wrapped value and leaves the allocation state untouched, for every
wrapped value; and in the spec scenario — wrap an owned heap-backed
value, drop the wrapper, then drop the original owner — the backing
allocation is freed exactly once. -/
theorem non_owning_drop_frees_nothing (v : RVal) (s : AllocState) (a : Nat)
    (h : s.freeCount a = 0) :
    dropGlue (NonOwning.new v) s = s ∧
    (dropGlue (RVal.ownedBuf a)
        (dropGlue (NonOwning.new (RVal.ownedBuf a)) s)).freeCount a = 1 := by
  constructor
  · simp [NonOwning.new, dropGlue, dropGlueList]
  · simp [NonOwning.new, dropGlue, dropGlueList, freeAlloc, h]

/-- Witness for C6 at a concrete state holding one live allocation that
has never been freed. -/
theorem non_owning_drop_frees_nothing_witness :
    (dropGlue (RVal.ownedBuf 0)
        (dropGlue (NonOwning.new (RVal.ownedBuf 0))
          { live := [0], freeCount := fun _ => 0 })).freeCount 0 = 1 :=
  (non_owning_drop_frees_nothing RVal.prim
    { live := [0], freeCount := fun _ => 0 } 0 rfl).2

/-- C7 counterexample: the claim says `NonOwning<T>` is `Copy`, but
non_owning.rs declares no `Copy` implementation for the wrapper (its
only trait impls are `Debug` and `Default`). -/
theorem non_owning_not_copy :
    RustTrait.copyImpl ∉ nonOwningTraitImpls := by
  decide

/-- C7 amended: the wrapper never runs a destructor — it has no `Drop`
impl and its drop glue frees nothing — but it is not `Copy` (nor
`Clone`): the only trait impls declared for it are `Debug` and
`Default`. -/
theorem non_owning_no_dtor_but_not_copy (v : RVal) (s : AllocState) :
    RustTrait.copyImpl ∉ nonOwningTraitImpls ∧
    RustTrait.cloneImpl ∉ nonOwningTraitImpls ∧
    RustTrait.dropImpl ∉ nonOwningTraitImpls ∧
    nonOwningTraitImpls = [RustTrait.debugImpl, RustTrait.defaultImpl] ∧
    dropGlue (NonOwning.new v) s = s :=
  ⟨by decide, by decide, by decide, rfl,
    by simp [NonOwning.new, dropGlue, dropGlueList]⟩

/-! ## The dynamic value and the conversion layer

Modelled from the spec: object.rs and conversion.rs are not part of the
sample, so the dynamic `Object` type and the `to_object` / `from_object`
conversions are built from the specification text. `Object` is the
tagged union of §3 — "nil, boolean, integer, float, string, array,
dictionary, opaque handle, function reference" — with a string modelled
as its byte contents, a float as its raw bit pattern (the marshaling
layer moves floats bitwise), an array as an ordered sequence of objects
and a dictionary as an ordered sequence of (string key, object value)
pairs. -/

mutual

/-- Modelled from the spec: the dynamic tagged union `Object` of §3
(object.rs is missing from the sample). -/
inductive Object where
  | nil
  | boolean (b : Bool)
  | integer (n : Int)
  | floatBits (bits : Nat)
  | str (s : List Nat)
  | array (items : ObjectList)
  | dictionary (pairs : ObjectPairs)
  | handle (h : Int)
  | funcref (r : Int)

/-- The ordered contents of an array-kinded `Object`. -/
inductive ObjectList where
  | nil
  | cons (head : Object) (tail : ObjectList)

/-- The insertion-ordered (key, value) pairs of a dictionary-kinded
`Object`. -/
inductive ObjectPairs where
  | nil
  | cons (key : List Nat) (value : Object) (tail : ObjectPairs)

end

mutual

/-- Modelled from the spec: the universe of supported typed domain
values, one shape per `Object` kind (§4.1: "construct from any
supported typed value ... and destructure into any supported typed
value"). -/
inductive Typed where
  | nil
  | boolean (b : Bool)
  | integer (n : Int)
  | floatBits (bits : Nat)
  | str (s : List Nat)
  | array (items : TypedList)
  | dictionary (pairs : TypedPairs)
  | handle (h : Int)
  | funcref (r : Int)

/-- A typed ordered sequence of typed values. -/
inductive TypedList where
  | nil
  | cons (head : Typed) (tail : TypedList)

/-- A typed insertion-ordered association sequence. -/
inductive TypedPairs where
  | nil
  | cons (key : List Nat) (value : Typed) (tail : TypedPairs)

end

mutual

/-- Modelled from the spec: `to_object`, building the dynamic value of
the matching kind from a typed value (§4.4); on this universe the
construction is total and recurses through arrays and dictionaries. -/
def to_object : Typed → Object
  | Typed.nil => Object.nil
  | Typed.boolean b => Object.boolean b
  | Typed.integer n => Object.integer n
  | Typed.floatBits bits => Object.floatBits bits
  | Typed.str s => Object.str s
  | Typed.array items => Object.array (to_object_list items)
  | Typed.dictionary pairs => Object.dictionary (to_object_pairs pairs)
  | Typed.handle h => Object.handle h
  | Typed.funcref r => Object.funcref r

/-- Maps `to_object` over an ordered sequence. -/
def to_object_list : TypedList → ObjectList
  | TypedList.nil => ObjectList.nil
  | TypedList.cons v vs => ObjectList.cons (to_object v) (to_object_list vs)

/-- Maps `to_object` over the values of an association sequence. -/
def to_object_pairs : TypedPairs → ObjectPairs
  | TypedPairs.nil => ObjectPairs.nil
  | TypedPairs.cons k v ps =>
    ObjectPairs.cons k (to_object v) (to_object_pairs ps)

end

mutual

/-- Modelled from the spec: `from_object`, destructuring a dynamic
value into the typed shape of its active kind (§4.1). Decoding into the
full universe of supported typed values succeeds for every kind — the
`ConversionError` path of §4.4 only arises when a *narrower* typed
shape is requested than the active kind provides, which the round-trip
never does because `to_object v` carries exactly the kind of `v`. -/
def from_object : Object → Typed
  | Object.nil => Typed.nil
  | Object.boolean b => Typed.boolean b
  | Object.integer n => Typed.integer n
  | Object.floatBits bits => Typed.floatBits bits
  | Object.str s => Typed.str s
  | Object.array items => Typed.array (from_object_list items)
  | Object.dictionary pairs => Typed.dictionary (from_object_pairs pairs)
  | Object.handle h => Typed.handle h
  | Object.funcref r => Typed.funcref r

/-- Maps `from_object` over an ordered sequence. -/
def from_object_list : ObjectList → TypedList
  | ObjectList.nil => TypedList.nil
  | ObjectList.cons v vs =>
    TypedList.cons (from_object v) (from_object_list vs)

/-- Maps `from_object` over the values of an association sequence. -/
def from_object_pairs : ObjectPairs → TypedPairs
  | ObjectPairs.nil => TypedPairs.nil
  | ObjectPairs.cons k v ps =>
    TypedPairs.cons k (from_object v) (from_object_pairs ps)

end

mutual

/-- Round-trip lemma on a single typed value, by mutual structural
induction with the list and pair forms. -/
def from_to : (v : Typed) → from_object (to_object v) = v
  | Typed.nil => rfl
  | Typed.boolean _ => rfl
  | Typed.integer _ => rfl
  | Typed.floatBits _ => rfl
  | Typed.str _ => rfl
  | Typed.handle _ => rfl
  | Typed.funcref _ => rfl
  | Typed.array items => by
    simp [to_object, from_object, from_to_list items]
  | Typed.dictionary pairs => by
    simp [to_object, from_object, from_to_pairs pairs]

/-- Round-trip lemma on an ordered sequence of typed values. -/
def from_to_list : (xs : TypedList) → from_object_list (to_object_list xs) = xs
  | TypedList.nil => rfl
  | TypedList.cons v vs => by
    simp [to_object_list, from_object_list, from_to v, from_to_list vs]

/-- Round-trip lemma on an association sequence of typed values. -/
def from_to_pairs :
    (ps : TypedPairs) → from_object_pairs (to_object_pairs ps) = ps
  | TypedPairs.nil => rfl
  | TypedPairs.cons k v ps => by
    simp [to_object_pairs, from_object_pairs, from_to v, from_to_pairs ps]

end

/-! ## Claim C1 -/

/-- C1: for every supported typed value `v`, converting to a dynamic
`Object` with `to_object` and back with `from_object` yields `v`: the
conversion round-trip is the identity on supported typed values. -/
theorem round_trip_identity (v : Typed) :
    from_object (to_object v) = v :=
  from_to v

/-! ## The typed error and the boundary call convention

The wrapper functions below are embedded from
crates/oxi-api/src/global.rs. The native side of each boundary call is
not repository code, so it is abstracted as an oracle function that
receives the domain arguments together with the error record the
wrapper passes by mutable reference, and returns the call result paired
with the final state of that record. The typed error enum of the api
crate and the `choose!` inspect step are not part of the sample and are
modelled from the spec. -/

/-- Modelled from the spec: the typed error surfaced by the wrapper
functions, following the §7 taxonomy — a boundary error converted from
the native error record, a conversion error from the dynamic-value
layer, and a domain error built from a message (the api crate builds
the latter with `Error::custom`). -/
inductive ApiError where
  | boundary (e : Error)
  | conversion (expected : String) (actual : String)
  | domain (msg : String)
deriving DecidableEq

/-- Modelled from the spec (§4.5): the inspect step every fallible
wrapper runs after the native call (the `choose!` macro of the api
crate). If the record indicates an error the wrapper stops and converts
the record into a typed error, discarding the success expression
untouched; otherwise the success expression is the result. -/
def choose {α : Type} (err : Error) (other : Except ApiError α) :
    Except ApiError α :=
  if err.is_err then Except.error (ApiError.boundary err) else other

/-- The inspect step for a success expression that can also panic
(`Option.none` models a panic, e.g. a failed `expect`). The error
branch never panics because the success expression is not evaluated
there. -/
def choosePanic {α : Type} (err : Error)
    (other : Option (Except ApiError α)) : Option (Except ApiError α) :=
  if err.is_err then Option.some (Except.error (ApiError.boundary err))
  else other

/-- Modelled from the spec: `Buffer` wraps the opaque native buffer
handle (`handle_T`, a C int); `nvim_create_buf` returns such a handle
and the wrapper converts it with `handle.into()`. -/
structure Buffer where
  handle : Int
deriving DecidableEq

/-- Embeds `u32::try_from` on a 64-bit signed integer: succeeds exactly
on values in `0 ..= u32::MAX`. -/
def u32TryFrom (n : Int) : Option Nat :=
  if 0 ≤ n ∧ n < 4294967296 then Option.some n.toNat else Option.none

/-- An ASCII apostrophe, as a one-character string. -/
def apos : String :=
  String.mk [Char.ofNat 39]

/-- The domain-error message `open_term` uses when the native call
returns channel id 0. -/
def openTermFailMsg : String :=
  "Couldn" ++ apos ++ "t create terminal instance"

/-- The domain-error message `get_color_by_name` builds with
`format!` when the native call returns the sentinel -1: the Debug form
of the name followed by " is not a valid color name". -/
def colorErrMsg (name : List Nat) : String :=
  cstrDebug name ++ " is not a valid color name"

/-- Embeds `chan_send` from global.rs: build the owned data string,
construct a fresh `Error::new` record, issue the native call with the
record passed by mutable reference (the oracle returns its final
state; the native function itself returns void), then run the inspect
step with success value `()`. -/
def chan_send (nvim_chan_send : Nat → List Nat → Error → Error)
    (channel_id : Nat) (data : List Nat) : Except ApiError Unit :=
  let err := Error.new
  let errF := nvim_chan_send channel_id data err
  choose errF (Except.ok ())

/-- Embeds `create_buf` from global.rs: construct a fresh `Error::new`
record, issue the native call (which returns a buffer handle), then run
the inspect step with success value `Ok(handle.into())`. -/
def create_buf (nvim_create_buf : Bool → Bool → Error → Int × Error)
    (is_listed is_scratch : Bool) : Except ApiError Buffer :=
  let err := Error.new
  let ret := nvim_create_buf is_listed is_scratch err
  choose ret.2 (Except.ok (Buffer.mk ret.1))

/-- Embeds `eval_statusline` from global.rs: build the owned input
string, construct a fresh `Error::new` record, issue the native call
(which returns a dictionary), then run the inspect step with success
value `Ok(StatuslineInfos::from_object(dict.into())?)` — the
`StatuslineInfos` decoding is abstracted as a function argument. -/
def eval_statusline {Opts Infos : Type}
    (nvim_eval_statusline : List Nat → Opts → Error → ObjectPairs × Error)
    (statusline_infos_from_object : Object → Except ApiError Infos)
    (str : List Nat) (opts : Opts) : Except ApiError Infos :=
  let err := Error.new
  let ret := nvim_eval_statusline str opts err
  choose ret.2 (statusline_infos_from_object (Object.dictionary ret.1))

/-- Embeds `open_term` from global.rs: construct a fresh `Error::new`
record, issue the native call (which returns a channel id as a native
`Integer`), then run the inspect step whose success arm maps channel id
0 to the domain error `openTermFailMsg` and any other id through
`try_into().expect("always positive")` into a `u32`. -/
def open_term (nvim_open_term : Int → ObjectPairs → Error → Int × Error)
    (buffer : Buffer) (opts : ObjectPairs) : Option (Except ApiError Nat) :=
  let err := Error.new
  let ret := nvim_open_term buffer.handle opts err
  choosePanic ret.2
    (if ret.1 = 0 then
      Option.some (Except.error (ApiError.domain openTermFailMsg))
    else
      match u32TryFrom ret.1 with
      | Option.some id => Option.some (Except.ok id)
      | Option.none => Option.none)

/-- Embeds `get_color_by_name` from global.rs: issue the native call —
which takes no error record — and map the sentinel return value -1 to a
domain error, any other value through `try_into().unwrap()` into a
`u32`. -/
def get_color_by_name (nvim_get_color_by_name : List Nat → Int)
    (name : List Nat) : Option (Except ApiError Nat) :=
  let color := nvim_get_color_by_name name
  if color ≠ -1 then
    match u32TryFrom color with
    | Option.some c => Option.some (Except.ok c)
    | Option.none => Option.none
  else
    Option.some (Except.error (ApiError.domain (colorErrMsg name)))

/-! ## Claims C2, C3, C5, C10 -/

/-- C2: for the fallible wrappers `eval_statusline` and `create_buf`,
whatever the native side does: if the final error record indicates a
failure the wrapper returns the error converted from that record and
the result does not depend on the success-value conversion (the
returned payload is never interpreted); if the record indicates no
error the wrapper converts the returned value into the typed success
result. -/
theorem wrapper_error_short_circuit {Opts Infos : Type}
    (nvim_eval_statusline : List Nat → Opts → Error → ObjectPairs × Error)
    (decode : Object → Except ApiError Infos)
    (str : List Nat) (opts : Opts)
    (nvim_create_buf : Bool → Bool → Error → Int × Error)
    (is_listed is_scratch : Bool) :
    (eval_statusline nvim_eval_statusline decode str opts =
      if (nvim_eval_statusline str opts Error.new).2.is_err then
        Except.error
          (ApiError.boundary (nvim_eval_statusline str opts Error.new).2)
      else
        decode
          (Object.dictionary (nvim_eval_statusline str opts Error.new).1)) ∧
    ((nvim_eval_statusline str opts Error.new).2.is_err = true →
      ∀ decode2 : Object → Except ApiError Infos,
        eval_statusline nvim_eval_statusline decode str opts =
          eval_statusline nvim_eval_statusline decode2 str opts) ∧
    (create_buf nvim_create_buf is_listed is_scratch =
      if (nvim_create_buf is_listed is_scratch Error.new).2.is_err then
        Except.error
          (ApiError.boundary
            (nvim_create_buf is_listed is_scratch Error.new).2)
      else
        Except.ok (Buffer.mk (nvim_create_buf is_listed is_scratch
          Error.new).1)) := by
  refine ⟨rfl, fun h decode2 => ?_, rfl⟩
  simp [eval_statusline, choose, h]

/-- A native behaviour for `nvim_eval_statusline` that ends with the
error record in the exception state and returns an empty dictionary. -/
def evalStatuslineNativeErr : List Nat → Unit → Error → ObjectPairs × Error :=
  fun _ _ _ =>
    (ObjectPairs.nil, { type := ErrorType.exception, msg := Option.none })

/-- A decoding function that accepts any dynamic value. -/
def decodeOkUnit : Object → Except ApiError Unit :=
  fun _ => Except.ok ()

/-- A decoding function that rejects any dynamic value. -/
def decodeErrUnit : Object → Except ApiError Unit :=
  fun _ => Except.error (ApiError.conversion "Dictionary" "Nil")

/-- Witness for C2: with a native call ending in the exception state,
the wrapper result is the boundary error and is the same under two
decoders that disagree everywhere. -/
theorem wrapper_error_short_circuit_witness :
    eval_statusline evalStatuslineNativeErr decodeOkUnit [] () =
      Except.error
        (ApiError.boundary
          { type := ErrorType.exception, msg := Option.none }) ∧
    eval_statusline evalStatuslineNativeErr decodeOkUnit [] () =
      eval_statusline evalStatuslineNativeErr decodeErrUnit [] () :=
  ⟨rfl,
    (wrapper_error_short_circuit evalStatuslineNativeErr decodeOkUnit [] ()
        (fun _ _ e => (0, e)) true false).2.1 rfl decodeErrUnit⟩

/-- C3: the error record every wrapper passes to the native call is the
freshly constructed `Error::new()` — discriminant `None`, null message
pointer, `is_err()` false, equal to `Error::default()` — and, because
the factorisations below hold for every native behaviour, each embedded
wrapper hands the native call exactly that fresh record (records are
never reused across boundary calls). -/
theorem fresh_zeroed_error_record
    (nvim_chan_send : Nat → List Nat → Error → Error)
    (channel_id : Nat) (data : List Nat)
    (nvim_create_buf : Bool → Bool → Error → Int × Error)
    (is_listed is_scratch : Bool)
    (nvim_open_term : Int → ObjectPairs → Error → Int × Error)
    (buffer : Buffer) (opts : ObjectPairs) :
    Error.new.type = ErrorType.none ∧
    Error.new.msg = Option.none ∧
    Error.is_err Error.new = false ∧
    Error.default = Error.new ∧
    chan_send nvim_chan_send channel_id data =
      choose (nvim_chan_send channel_id data Error.new) (Except.ok ()) ∧
    create_buf nvim_create_buf is_listed is_scratch =
      choose (nvim_create_buf is_listed is_scratch Error.new).2
        (Except.ok
          (Buffer.mk (nvim_create_buf is_listed is_scratch Error.new).1)) ∧
    open_term nvim_open_term buffer opts =
      choosePanic (nvim_open_term buffer.handle opts Error.new).2
        (if (nvim_open_term buffer.handle opts Error.new).1 = 0 then
          Option.some (Except.error (ApiError.domain openTermFailMsg))
        else
          match u32TryFrom (nvim_open_term buffer.handle opts Error.new).1 with
          | Option.some id => Option.some (Except.ok id)
          | Option.none => Option.none) :=
  ⟨rfl, rfl, rfl, rfl, rfl, rfl, rfl⟩

/-- A native behaviour for `nvim_open_term` that reports no boundary
error and returns the channel id -1. -/
def openTermNativeNeg : Int → ObjectPairs → Error → Int × Error :=
  fun _ _ e => (-1, e)

/-- C5 counterexample: with the native call returning the nonzero
channel id -1 and a clean error record, `open_term` neither returns
`Ok` nor an error result — the `expect("always positive")` conversion
to `u32` panics (modelled as `Option.none`), refuting "returns Ok with
that id for every nonzero returned channel id". -/
theorem open_term_panics_on_negative_id :
    open_term openTermNativeNeg (Buffer.mk 1) ObjectPairs.nil =
      Option.none :=
  rfl

/-- C5 amended: when the boundary error record indicates no error,
`open_term` returns the domain error `openTermFailMsg`
exactly when the returned channel id is 0; it returns `Ok`
with the id for every nonzero id that fits in a `u32`, and panics on
the `expect` for a nonzero id outside the `u32` range. -/
theorem open_term_zero_sentinel
    (nvim_open_term : Int → ObjectPairs → Error → Int × Error)
    (buffer : Buffer) (opts : ObjectPairs)
    (hnoerr : (nvim_open_term buffer.handle opts Error.new).2.is_err = false) :
    (open_term nvim_open_term buffer opts =
        Option.some (Except.error (ApiError.domain openTermFailMsg)) ↔
      (nvim_open_term buffer.handle opts Error.new).1 = 0) ∧
    (0 < (nvim_open_term buffer.handle opts Error.new).1 →
      (nvim_open_term buffer.handle opts Error.new).1 < 4294967296 →
      open_term nvim_open_term buffer opts =
        Option.some
          (Except.ok (nvim_open_term buffer.handle opts Error.new).1.toNat)) ∧
    ((nvim_open_term buffer.handle opts Error.new).1 < 0 ∨
        4294967296 ≤ (nvim_open_term buffer.handle opts Error.new).1 →
      open_term nvim_open_term buffer opts = Option.none) := by
  refine ⟨?_, fun h0 h32 => ?_, fun hout => ?_⟩
  · by_cases h : (nvim_open_term buffer.handle opts Error.new).1 = 0
    · simp [open_term, choosePanic, hnoerr, h]
    · have : u32TryFrom (nvim_open_term buffer.handle opts Error.new).1 =
          Option.some (nvim_open_term buffer.handle opts Error.new).1.toNat ∨
          u32TryFrom (nvim_open_term buffer.handle opts Error.new).1 =
            Option.none := by
        unfold u32TryFrom
        by_cases hin : 0 ≤ (nvim_open_term buffer.handle opts Error.new).1 ∧
            (nvim_open_term buffer.handle opts Error.new).1 < 4294967296 <;>
          simp [hin]
      rcases this with hu | hu <;>
        simp [open_term, choosePanic, hnoerr, h, hu]
  · have h : (nvim_open_term buffer.handle opts Error.new).1 ≠ 0 := by omega
    have hu : u32TryFrom (nvim_open_term buffer.handle opts Error.new).1 =
        Option.some (nvim_open_term buffer.handle opts Error.new).1.toNat := by
      unfold u32TryFrom
      rw [if_pos ⟨by omega, h32⟩]
    simp [open_term, choosePanic, hnoerr, h, hu]
  · have h : (nvim_open_term buffer.handle opts Error.new).1 ≠ 0 := by omega
    have hu : u32TryFrom (nvim_open_term buffer.handle opts Error.new).1 =
        Option.none := by
      unfold u32TryFrom
      rw [if_neg]
      omega
    simp [open_term, choosePanic, hnoerr, h, hu]

/-- A native behaviour for `nvim_open_term` that reports no boundary
error and returns the channel id 5. -/
def openTermNativeOk : Int → ObjectPairs → Error → Int × Error :=
  fun _ _ e => (5, e)

/-- Witness for the amended C5 at a concrete native behaviour returning
channel id 5 with a clean error record. -/
theorem open_term_zero_sentinel_witness :
    open_term openTermNativeOk (Buffer.mk 1) ObjectPairs.nil =
      Option.some (Except.ok 5) :=
  (open_term_zero_sentinel openTermNativeOk (Buffer.mk 1) ObjectPairs.nil
    rfl).2.1 (by decide) (by decide)

/-- C10: `get_color_by_name` consults no boundary error record (its
embedding takes none, mirroring the call site); assuming the native
call returns -1 or a non-negative 24-bit value, the wrapper returns the
domain error exactly when the native call returns the sentinel -1, and
otherwise returns `Ok` with the value converted to `u32`. -/
theorem get_color_by_name_sentinel (nvim_get_color_by_name : List Nat → Int)
    (name : List Nat)
    (h : nvim_get_color_by_name name = -1 ∨
      (0 ≤ nvim_get_color_by_name name ∧
        nvim_get_color_by_name name < 16777216)) :
    (get_color_by_name nvim_get_color_by_name name =
        Option.some (Except.error (ApiError.domain (colorErrMsg name))) ↔
      nvim_get_color_by_name name = -1) ∧
    (nvim_get_color_by_name name ≠ -1 →
      get_color_by_name nvim_get_color_by_name name =
        Option.some (Except.ok (nvim_get_color_by_name name).toNat)) := by
  rcases h with h | ⟨h0, h24⟩
  · constructor
    · simp [get_color_by_name, h]
    · intro hne
      exact absurd h hne
  · have hne : nvim_get_color_by_name name ≠ -1 := by omega
    have hu : u32TryFrom (nvim_get_color_by_name name) =
        Option.some (nvim_get_color_by_name name).toNat := by
      unfold u32TryFrom
      rw [if_pos ⟨h0, by omega⟩]
    constructor
    · simp [get_color_by_name, hne, hu]
    · intro _
      simp [get_color_by_name, hne, hu]

/-- A native behaviour for `nvim_get_color_by_name` returning the
24-bit value 65535. -/
def getColorNativeCyan : List Nat → Int :=
  fun _ => 65535

/-- Witness for C10 at a concrete native behaviour returning 65535. -/
theorem get_color_by_name_sentinel_witness :
    get_color_by_name getColorNativeCyan [] =
      Option.some (Except.ok 65535) :=
  (get_color_by_name_sentinel getColorNativeCyan []
    (Or.inr (by decide))).2 (by decide)

end NvimOxi
